import Mathlib

/-!
Verification of the OneFantasy draft-room core ("Draft Turn & Queue
Coordinator") against its specification.

The development shallowly embeds the relevant TypeScript sources:

* `getDraftOrder`            — frontend/src/components/MockDraftSimulator.tsx
* `getCurrentDraftTeamIndex` — selectors.getCurrentDraftTeam, frontend/src/store.ts
  (concatenated into frontend/src/utils/validators.ts)
* `isValidDraftSettings`     — frontend/src/utils/validators.ts
* `appReducer`               — frontend/src/store.ts (the Draft State Store)
* `draftPlayer`, `addToQueue`, `handleUserDraftPick`
                             — frontend/src/components/MockDraftSimulator.tsx
* `handleMakePick`           — frontend/src/pages/DraftRoom.tsx
* `gridPickNumber`           — DraftGrid component, gridData layout

Machine integers are modelled as `Nat`/`Int`; where the JavaScript number
semantics at degenerate inputs matters (division by zero producing
Infinity/NaN), a small explicit model `JsNum` of the JavaScript arithmetic
fragment used by the resolver is given and related to the `Nat` embedding.
-/

/-! ### Turn resolver -/

/-- Source: MockDraftSimulator.tsx, `getDraftOrder(pick, totalTeams)`.
`Math.ceil(pick / totalTeams)` is the ceiling division, written here as
`(pick + totalTeams - 1) / totalTeams` on `Nat` (the two agree for
`totalTeams > 0`; the JavaScript behaviour at `totalTeams = 0` is modelled
separately by `getDraftOrderJs`). -/
def getDraftOrder (pick totalTeams : ℕ) : ℕ :=
  let round := (pick + totalTeams - 1) / totalTeams
  let isEvenRound := round % 2 = 0
  let positionInRound := (pick - 1) % totalTeams + 1
  if isEvenRound then totalTeams - positionInRound else positionInRound - 1

/-- Source: store.ts, `selectors.getCurrentDraftTeam`: the team-index
computation `isSnake ? teamCount - 1 - positionInRound : positionInRound`
with the 0-based `positionInRound = (currentPick - 1) % teamCount`. -/
def getCurrentDraftTeamIndex (currentPick teamCount : ℕ) : ℕ :=
  let round := (currentPick + teamCount - 1) / teamCount
  let isSnake := round % 2 = 0
  let positionInRound := (currentPick - 1) % teamCount
  if isSnake then teamCount - 1 - positionInRound else positionInRound

/-- Modelled from the spec (section 4.1), for comparison with the source:
`round = ceil(currentPick / teamCount)`;
`positionInRound = ((currentPick - 1) mod teamCount) + 1`;
if `round` is even, `index = teamCount - positionInRound`,
else `index = positionInRound - 1`. -/
def specSnakeIndex (currentPick teamCount : ℕ) : ℕ :=
  let round := (currentPick + teamCount - 1) / teamCount
  let positionInRound := (currentPick - 1) % teamCount + 1
  if round % 2 = 0 then teamCount - positionInRound else positionInRound - 1

/-- Modelled from the spec (section 4.1), linear drafts:
`index = positionInRound - 1` unconditionally. -/
def specLinearIndex (currentPick teamCount : ℕ) : ℕ :=
  ((currentPick - 1) % teamCount + 1) - 1

/-! ### JavaScript number model

`getDraftOrder` performs `Math.ceil(pick / totalTeams)` and
`(pick - 1) % totalTeams` on JavaScript numbers.  With `totalTeams = 0`
these produce Infinity and NaN rather than raising an error.  `JsNum`
models the fragment of JavaScript number arithmetic the resolver uses
(finite values as exact rationals, positive/negative infinity, NaN). -/

inductive JsNum where
  | num (q : ℚ)
  | inf
  | ninf
  | nan
deriving DecidableEq

/-- Truncation toward zero, as used by the JavaScript `%` operator. -/
def jsTrunc (q : ℚ) : ℤ := if 0 ≤ q then ⌊q⌋ else ⌈q⌉

/-- JavaScript division: division by zero yields ±Infinity (NaN for 0/0). -/
def jsDiv : JsNum → JsNum → JsNum
  | .nan, _ => .nan
  | _, .nan => .nan
  | .num a, .num b =>
      if b = 0 then (if a = 0 then .nan else if 0 < a then .inf else .ninf)
      else .num (a / b)
  | .inf, .num b => if 0 ≤ b then .inf else .ninf
  | .ninf, .num b => if 0 ≤ b then .ninf else .inf
  | .num _, .inf => .num 0
  | .num _, .ninf => .num 0
  | _, _ => .nan

/-- JavaScript remainder `a % b`: sign of the dividend, NaN when the
dividend is infinite or the divisor is zero. -/
def jsMod : JsNum → JsNum → JsNum
  | .nan, _ => .nan
  | _, .nan => .nan
  | .inf, _ => .nan
  | .ninf, _ => .nan
  | .num a, .num b => if b = 0 then .nan else .num (a - b * (jsTrunc (a / b) : ℚ))
  | .num a, _ => .num a

/-- JavaScript `Math.ceil`. -/
def jsCeil : JsNum → JsNum
  | .num q => .num (⌈q⌉ : ℚ)
  | .inf => .inf
  | .ninf => .ninf
  | .nan => .nan

/-- JavaScript addition on the modelled fragment. -/
def jsAdd : JsNum → JsNum → JsNum
  | .nan, _ => .nan
  | _, .nan => .nan
  | .num a, .num b => .num (a + b)
  | .inf, .ninf => .nan
  | .ninf, .inf => .nan
  | .inf, _ => .inf
  | _, .inf => .inf
  | .ninf, _ => .ninf
  | _, .ninf => .ninf

/-- JavaScript subtraction on the modelled fragment. -/
def jsSub : JsNum → JsNum → JsNum
  | .nan, _ => .nan
  | _, .nan => .nan
  | .num a, .num b => .num (a - b)
  | .inf, .inf => .nan
  | .ninf, .ninf => .nan
  | .inf, _ => .inf
  | .ninf, _ => .ninf
  | .num _, .inf => .ninf
  | .num _, .ninf => .inf

/-- JavaScript strict equality `===` on numbers: NaN compares unequal to
everything, including itself. -/
def jsEq : JsNum → JsNum → Bool
  | .nan, _ => false
  | _, .nan => false
  | .num a, .num b => a = b
  | .inf, .inf => true
  | .ninf, .ninf => true
  | _, _ => false

/-- Source: MockDraftSimulator.tsx `getDraftOrder`, translated
operation-by-operation onto the JavaScript number model, so that its
behaviour at `totalTeams = 0` (division and remainder by zero) is captured
exactly: the function is total and silently returns a `JsNum` value. -/
def getDraftOrderJs (pick totalTeams : JsNum) : JsNum :=
  let round := jsCeil (jsDiv pick totalTeams)
  let isEvenRound := jsEq (jsMod round (.num 2)) (.num 0)
  let positionInRound := jsAdd (jsMod (jsSub pick (.num 1)) totalTeams) (.num 1)
  if isEvenRound then jsSub totalTeams positionInRound
  else jsSub positionInRound (.num 1)

/-! ### Draft grid layout -/

/-- Source: DraftGrid component, `gridData` pick-number assignment in the
snake case (`isSnakeDraft = true`, the component's default):
even rounds use `(round - 1) * teams.length + (teams.length - teamIndex)`,
odd rounds use `(round - 1) * teams.length + (teamIndex + 1)`. -/
def gridPickNumber (teams round teamIndex : ℕ) : ℕ :=
  if round % 2 = 0 then (round - 1) * teams + (teams - teamIndex)
  else (round - 1) * teams + (teamIndex + 1)

/-- Round of a pick number, `Math.ceil(pick / totalTeams)` as used both by
the resolver and to locate a pick in the grid. -/
def pickRound (pick totalTeams : ℕ) : ℕ := (pick + totalTeams - 1) / totalTeams

/-! ### Draft settings validation -/

/-- Argument of `isValidDraftSettings` (validators.ts): each field optional. -/
structure DraftSettingsInput where
  rounds : Option ℤ
  pick_duration : Option ℤ
  draft_type : Option String

/-- Result shape `{ valid, errors }` of `isValidDraftSettings`. -/
structure ValidationResult where
  valid : Bool
  errors : List String
deriving DecidableEq

/-- Source: validators.ts `isValidDraftSettings`: pushes an error message
per out-of-range field; `draft_type` must be one of
`snake`, `linear`, `random`; `valid` iff no errors accumulated. -/
def isValidDraftSettings (settings : DraftSettingsInput) : ValidationResult :=
  let e1 : List String :=
    match settings.rounds with
    | some r => if r < 10 ∨ 20 < r then ["Draft rounds must be between 10 and 20"] else []
    | none => []
  let e2 : List String :=
    match settings.pick_duration with
    | some d => if d < 30 ∨ 300 < d then ["Pick duration must be between 30 and 300 seconds"] else []
    | none => []
  let e3 : List String :=
    match settings.draft_type with
    | some t => if ["snake", "linear", "random"].contains t then [] else ["Invalid draft type"]
    | none => []
  let errors := e1 ++ e2 ++ e3
  { valid := errors.length == 0, errors := errors }

/-! ### Draft State Store (store.ts)

The store's `AppState` and `appReducer`.  Out-of-scope payloads (user,
teams, players) are modelled by the fields the reducer reads or writes;
all other reducer cases are embedded so that frame properties (which
fields an action leaves untouched) are meaningful. -/

/-- Roster shape used by the reducer (`starters`/`bench`/`injured_reserve`
hold player ids). -/
structure Roster where
  starters : List ℕ
  bench : List ℕ
  injured_reserve : List ℕ
deriving DecidableEq

/-- Team, restricted to the fields the reducer touches. -/
structure Team where
  id : String
  roster : Roster
deriving DecidableEq

/-- League, restricted to the fields the reducer touches. -/
structure League where
  id : String
  teams : List Team
deriving DecidableEq

/-- Player, restricted to the fields the reducer touches
(`id`, `selected_by_percent`). -/
structure Player where
  id : ℕ
  selected_by_percent : ℤ
deriving DecidableEq

/-- Record literal the reducer appends to a `draftBoard` row in
`ADD_DRAFT_PICK` (store.ts). -/
structure StorePick where
  id : String
  league_id : String
  team_id : String
  player_id : ℕ
  round : ℕ
  pick_number : ℕ
  pick_in_round : ℤ
  timestamp : String
deriving DecidableEq

/-- DraftState from types/index.ts (fields as declared there). -/
structure DraftState where
  isActive : Bool
  currentPick : ℕ
  currentRound : ℕ
  timeRemaining : ℕ
  isMyTurn : Bool
  availablePlayers : List Player
  draftBoard : List (List StorePick)
  queuedPlayers : List Player
deriving DecidableEq

/-- NotificationState as declared locally in store.ts. -/
structure NotificationState where
  trades : Bool
  waivers : Bool
  lineupReminders : Bool
  news : Bool
  scores : Bool
deriving DecidableEq

/-- Loading-flag record of AppState. -/
structure LoadingState where
  user : Bool
  league : Bool
  players : Bool
  draft : Bool
deriving DecidableEq

/-- AppState of store.ts (the user payload is represented by its uid). -/
structure AppState where
  user : Option String
  currentLeague : Option League
  userTeam : Option Team
  draftState : Option DraftState
  availablePlayers : List Player
  notifications : NotificationState
  loading : LoadingState
  error : Option String
deriving DecidableEq

/-- Key argument of the SET_LOADING action. -/
inductive LoadKey where
  | user | league | players | draft
deriving DecidableEq

/-- Action type of store.ts. -/
inductive AppAction where
  | SET_USER (payload : Option String)
  | SET_CURRENT_LEAGUE (payload : Option League)
  | SET_USER_TEAM (payload : Option Team)
  | SET_DRAFT_STATE (payload : Option DraftState)
  | SET_AVAILABLE_PLAYERS (payload : List Player)
  | UPDATE_PLAYER (payload : Player)
  | SET_NOTIFICATIONS (payload : NotificationState)
  | SET_LOADING (key : LoadKey) (value : Bool)
  | SET_ERROR (payload : Option String)
  | UPDATE_TEAM_ROSTER (teamId : String) (roster : List Player)
  | ADD_DRAFT_PICK (teamId : String) (player : Player) (pick : ℕ)
  | RESET_STATE
deriving DecidableEq

/-- initialState of store.ts. -/
def initialState : AppState :=
  { user := none
    currentLeague := none
    userTeam := none
    draftState := none
    availablePlayers := []
    notifications :=
      { trades := true, waivers := true, lineupReminders := true,
        news := true, scores := true }
    loading := { user := false, league := false, players := false, draft := false }
    error := none }

/-- Source: store.ts `appReducer`.  The extra argument `now` supplies the
value of `new Date().toISOString()` used in the ADD_DRAFT_PICK case; no
other case reads it. -/
def appReducer (state : AppState) (action : AppAction) (now : String) : AppState :=
  match action with
  | .SET_USER u => { state with user := u }
  | .SET_CURRENT_LEAGUE l => { state with currentLeague := l }
  | .SET_USER_TEAM t => { state with userTeam := t }
  | .SET_DRAFT_STATE d => { state with draftState := d }
  | .SET_AVAILABLE_PLAYERS ps => { state with availablePlayers := ps }
  | .UPDATE_PLAYER p =>
      { state with
        availablePlayers :=
          state.availablePlayers.map (fun q => if q.id = p.id then p else q) }
  | .SET_NOTIFICATIONS n => { state with notifications := n }
  | .SET_LOADING k v =>
      { state with
        loading :=
          match k with
          | .user => { state.loading with user := v }
          | .league => { state.loading with league := v }
          | .players => { state.loading with players := v }
          | .draft => { state.loading with draft := v } }
  | .SET_ERROR e => { state with error := e }
  | .UPDATE_TEAM_ROSTER teamId roster =>
      { state with
        currentLeague :=
          match state.currentLeague with
          | some lg =>
              some { lg with
                teams := lg.teams.map (fun team =>
                  if team.id = teamId then
                    { team with
                      roster :=
                        { starters := roster.map (fun p => p.id),
                          bench := [], injured_reserve := [] } }
                  else team) }
          | none => none,
        userTeam :=
          match state.userTeam with
          | some ut =>
              if ut.id = teamId then
                some { ut with
                  roster :=
                    { starters := roster.map (fun p => p.id),
                      bench := [], injured_reserve := [] } }
              else some ut
          | none => none }
  | .ADD_DRAFT_PICK teamId player pick =>
      -- `state.currentLeague?.teams.length || 1`: JavaScript || treats the
      -- number 0 as falsy, so an absent league or an empty team list both
      -- yield 1.
      let teamCountRaw :=
        match state.currentLeague with
        | some lg => lg.teams.length
        | none => 0
      let teamCount := if teamCountRaw = 0 then 1 else teamCountRaw
      -- `Math.ceil(pick / teamCount) - 1`, computed in ℤ because the
      -- JavaScript value is -1 when pick = 0.
      let currentRound : ℤ := (pickRound pick teamCount : ℤ) - 1
      { state with
        availablePlayers :=
          state.availablePlayers.map (fun p =>
            if p.id = player.id then
              { p with selected_by_percent := p.selected_by_percent + 1 }
            else p),
        currentLeague :=
          match state.currentLeague with
          | some lg =>
              some { lg with
                teams := lg.teams.map (fun team =>
                  if team.id = teamId then
                    { team with
                      roster :=
                        { starters := team.roster.starters ++ [player.id],
                          bench := team.roster.bench,
                          injured_reserve := team.roster.injured_reserve } }
                  else team) }
          | none => none,
        userTeam :=
          match state.userTeam with
          | some ut =>
              if ut.id = teamId then
                some { ut with
                  roster :=
                    { starters := ut.roster.starters ++ [player.id],
                      bench := ut.roster.bench,
                      injured_reserve := ut.roster.injured_reserve } }
              else some ut
          | none => none,
        draftState :=
          match state.draftState with
          | some ds =>
              some { ds with
                currentPick := pick + 1,
                draftBoard := ds.draftBoard.mapIdx (fun roundIndex row =>
                  if (roundIndex : ℤ) = currentRound then
                    -- in this branch currentRound = roundIndex, so the
                    -- source's `round: currentRound + 1` is roundIndex + 1
                    row ++ [{ id := "pick-" ++ toString pick,
                              league_id :=
                                match state.currentLeague with
                                | some lg => lg.id
                                | none => "",
                              team_id := teamId,
                              player_id := player.id,
                              round := roundIndex + 1,
                              pick_number := pick,
                              pick_in_round :=
                                Int.tmod ((pick : ℤ) - 1) (teamCount : ℤ) + 1,
                              timestamp := now }]
                  else row) }
          | none => none }
  | .RESET_STATE => initialState

/-- Source: store.ts `selectors.getCurrentDraftPick`:
`state.draftState?.currentPick || 1` (the number 0 is falsy). -/
def getCurrentDraftPick (state : AppState) : ℕ :=
  match state.draftState with
  | some ds => if ds.currentPick = 0 then 1 else ds.currentPick
  | none => 1

/-! ### Snapshot load and pick replay over the store -/

/-- Store components replaced by a snapshot load (REST fetch): the draft
state, the available players, the league and the user team — everything
the ADD_DRAFT_PICK case of the reducer writes. -/
structure Snapshot where
  draftState : Option DraftState
  availablePlayers : List Player
  currentLeague : Option League
  userTeam : Option Team
deriving DecidableEq

/-- Snapshot load: dispatching the store's wholesale setter actions for
each snapshot component. -/
def applySnapshot (s : AppState) (snap : Snapshot) (now : String) : AppState :=
  appReducer
    (appReducer
      (appReducer
        (appReducer s (.SET_DRAFT_STATE snap.draftState) now)
        (.SET_AVAILABLE_PLAYERS snap.availablePlayers) now)
      (.SET_CURRENT_LEAGUE snap.currentLeague) now)
    (.SET_USER_TEAM snap.userTeam) now

/-- Payload of an incoming pick-made push event, as dispatched to the
reducer (`now` is the timestamp taken when the event is processed). -/
structure PickEvent where
  teamId : String
  player : Player
  pick : ℕ
  now : String
deriving DecidableEq

/-- Pick-made event application: dispatching ADD_DRAFT_PICK. -/
def applyPickMade (s : AppState) (e : PickEvent) : AppState :=
  appReducer s (.ADD_DRAFT_PICK e.teamId e.player e.pick) e.now

/-- Replay of a sequence of pick-made events, in order. -/
def replayPicks (s : AppState) (es : List PickEvent) : AppState :=
  es.foldl applyPickMade s

/-- Snapshot extracted from a state (for the bulk-load round trip). -/
def snapshotOf (s : AppState) : Snapshot :=
  { draftState := s.draftState
    availablePlayers := s.availablePlayers
    currentLeague := s.currentLeague
    userTeam := s.userTeam }

/-- Events numbered consecutively from `start` (an in-order event
sequence). -/
def picksInOrder : ℕ → List PickEvent → Bool
  | _, [] => true
  | n, e :: es => e.pick == n && picksInOrder (n + 1) es

/-! ### Mock draft simulator (MockDraftSimulator.tsx)

State and the synchronous state updates of `draftPlayer`, `addToQueue`
and `handleUserDraftPick`.  `MockPlayer` is restricted to the fields the
embedded operations read (`id`, `isAvailable`). -/

/-- Player as held by the mock simulator. -/
structure MockPlayer where
  id : ℕ
  isAvailable : Bool
deriving DecidableEq

/-- Team of the mock simulator (id plus its drafted players). -/
structure MockTeam where
  id : String
  draftedPlayers : List MockPlayer
deriving DecidableEq

/-- DraftPick record literal built in `draftPlayer`. -/
structure MockPick where
  id : String
  league_id : String
  team_id : String
  player_id : ℕ
  pick_number : ℕ
  round : ℕ
  timestamp : String
  is_auto_pick : Bool
deriving DecidableEq

/-- Component state of MockDraftSimulator (the useState hooks), plus the
configuration it reads from its `league` prop (`league.id` and
`league.settings.roster_size`). -/
structure MockState where
  leagueId : String
  rosterSize : ℕ
  isActive : Bool
  currentPick : ℕ
  currentTeamIndex : ℕ
  draftPicks : List MockPick
  mockTeams : List MockTeam
  availablePlayers : List MockPlayer
  filteredPlayers : List MockPlayer
  userQueue : List MockPlayer
  isDraftComplete : Bool
  isAutoPicking : Bool
deriving DecidableEq

/-- Source: MockDraftSimulator.tsx `draftPlayer(player, teamIndex)`.
`now` supplies `new Date().toISOString()`.  The source indexes
`mockTeams[teamIndex]` without a bound check; the embedding uses `getD`
with a dummy team (the claims only exercise in-range indices).  The
trailing `setTimeout(autoPickForCPU, ...)` is an asynchronous effect, not
part of the synchronous state update. -/
def draftPlayer (s : MockState) (player : MockPlayer) (teamIndex : ℕ)
    (now : String) : MockState :=
  let pick : MockPick :=
    { id := "mock-" ++ toString s.currentPick
      league_id := s.leagueId
      team_id := (s.mockTeams.getD teamIndex { id := "", draftedPlayers := [] }).id
      player_id := player.id
      pick_number := s.currentPick
      round := pickRound s.currentPick s.mockTeams.length
      timestamp := now
      is_auto_pick := teamIndex != 0 }
  let updatedTeams := s.mockTeams.mapIdx (fun index team =>
    if index = teamIndex then
      { team with draftedPlayers := team.draftedPlayers ++ [player] }
    else team)
  let updatedPlayers := s.availablePlayers.map (fun p =>
    if p.id = player.id then { p with isAvailable := false } else p)
  let s1 :=
    { s with
      draftPicks := s.draftPicks ++ [pick]
      mockTeams := updatedTeams
      availablePlayers := updatedPlayers
      filteredPlayers := updatedPlayers.filter (fun p => p.isAvailable)
      userQueue := s.userQueue.filter (fun p => p.id != player.id) }
  let totalPicks := s.mockTeams.length * s.rosterSize
  if s.currentPick ≥ totalPicks then
    { s1 with isDraftComplete := true, isActive := false }
  else
    let nextPick := s.currentPick + 1
    let nextTeamIndex := getDraftOrder nextPick s.mockTeams.length
    { s1 with currentPick := nextPick, currentTeamIndex := nextTeamIndex }

/-- Source: MockDraftSimulator.tsx `addToQueue(player)`: no-op when a
player with the same id is already queued, otherwise appends. -/
def addToQueue (s : MockState) (player : MockPlayer) : MockState :=
  if s.userQueue.any (fun p => p.id == player.id) then s
  else { s with userQueue := s.userQueue ++ [player] }

/-- Source: MockDraftSimulator.tsx `handleUserDraftPick(player)`:
guarded on the draft being active, the user (team index 0) being on the
clock, and no auto-pick in flight; no availability check is performed. -/
def handleUserDraftPick (s : MockState) (player : MockPlayer)
    (now : String) : MockState :=
  if !s.isActive || s.currentTeamIndex != 0 || s.isAutoPicking then s
  else draftPlayer s player 0 now

/-! ### DraftRoom pick dispatcher (DraftRoom page)

`handleMakePick` guards on `isMyTurn` and calls `makePick` (the network
request, implemented in the `useDraftState` hook which is not part of the
provided sources; its success/failure is abstracted by a predicate), then
removes the player from the queue on success.  The Bool result records
whether the network call was made. -/

/-- Source: DraftRoom page `handleMakePick(playerId)` together with its
`removeFromQueue`; the first component of the result is true exactly when
`makePick` was invoked. -/
def handleMakePick (isMyTurn : Bool) (makePickSuccess : ℕ → Bool)
    (queue : List ℕ) (playerId : ℕ) : Bool × List ℕ :=
  if !isMyTurn then (false, queue)
  else
    (true,
     if makePickSuccess playerId then queue.filter (fun id => id != playerId)
     else queue)

/-! ### Operation sequences over the mock simulator (queue invariant) -/

/-- Operations the queue invariant quantifies over: enqueue and pick-made
(a pick by any team, the user's or another). -/
inductive MockOp where
  | enqueue (player : MockPlayer)
  | pickMade (player : MockPlayer) (teamIndex : ℕ) (now : String)
deriving DecidableEq

/-- Apply one operation. -/
def applyMockOp (s : MockState) : MockOp → MockState
  | .enqueue p => addToQueue s p
  | .pickMade p t now => draftPlayer s p t now

/-- Apply a sequence of operations, left to right. -/
def applyMockOps (s : MockState) (ops : List MockOp) : MockState :=
  ops.foldl applyMockOp s

/-- Ids of the players currently available (the `isAvailable` flag is how
MockDraftSimulator represents membership in the available-player set). -/
def availableIds (s : MockState) : List ℕ :=
  (s.availablePlayers.filter (fun p => p.isAvailable)).map (fun p => p.id)

/-- Queue invariant: every queued player id is the id of an available
player. -/
def queueSubsetAvailable (s : MockState) : Prop :=
  ∀ p ∈ s.userQueue, p.id ∈ availableIds s

instance (s : MockState) : Decidable (queueSubsetAvailable s) := by
  unfold queueSubsetAvailable; infer_instance

/-- Guarded operation sequences: every enqueue enqueues a player that is
available at the moment it is applied (pick-made operations are
unrestricted). -/
def opsGuarded : MockState → List MockOp → Bool
  | _, [] => true
  | s, op :: rest =>
      (match op with
       | .enqueue p => decide (p.id ∈ availableIds s)
       | .pickMade _ _ _ => true)
      && opsGuarded (applyMockOp s op) rest

/-! ### Helper lemmas on the resolver arithmetic -/

/-- Ceiling division re-expressed through floor division of `pick - 1`. -/
theorem pickRound_eq_div_succ (pick totalTeams : ℕ) (hT : 0 < totalTeams)
    (hp : 1 ≤ pick) :
    pickRound pick totalTeams = (pick - 1) / totalTeams + 1 := by
  unfold pickRound
  have h : pick + totalTeams - 1 = (pick - 1) + totalTeams := by omega
  rw [h, Nat.add_div_right _ hT]

/-- Closed form of the resolver through the division and remainder of
`pick - 1` by the team count. -/
theorem getDraftOrder_div_mod (pick totalTeams : ℕ) (hT : 0 < totalTeams)
    (hp : 1 ≤ pick) :
    getDraftOrder pick totalTeams =
      if ((pick - 1) / totalTeams + 1) % 2 = 0 then
        totalTeams - ((pick - 1) % totalTeams + 1)
      else (pick - 1) % totalTeams := by
  simp only [getDraftOrder]
  rw [show pick + totalTeams - 1 = (pick - 1) + totalTeams by omega,
    Nat.add_div_right _ hT]
  split_ifs <;> omega

/-- Claim C1: for every snake draft with `teamCount > 0` and every
`currentPick ≥ 1`, the turn resolver returns the 0-based index given by
the spec formula (round from ceiling division, position in round from the
remainder, reversal on even rounds) — both the simulator resolver
`getDraftOrder` and the store selector `getCurrentDraftTeamIndex` — and in
particular, for 10 teams, pick 1 maps to index 0, pick 10 to 9, pick 11
to 9, pick 20 to 0 and pick 21 to 0. -/
theorem c1_snake_turn_resolver (pick teams : ℕ) (hT : 0 < teams)
    (hp : 1 ≤ pick) :
    (getDraftOrder pick teams = specSnakeIndex pick teams ∧
     getCurrentDraftTeamIndex pick teams = specSnakeIndex pick teams) ∧
    (getDraftOrder 1 10 = 0 ∧ getDraftOrder 10 10 = 9 ∧
     getDraftOrder 11 10 = 9 ∧ getDraftOrder 20 10 = 0 ∧
     getDraftOrder 21 10 = 0) := by
  refine ⟨⟨rfl, ?_⟩, by decide⟩
  simp only [getCurrentDraftTeamIndex, specSnakeIndex]
  split_ifs <;> omega

/-- Witness for C1 at pick 11 of a 10-team draft. -/
theorem c1_snake_turn_resolver_witness :
    (0 : ℕ) < 10 ∧ (1 : ℕ) ≤ 11 ∧ getDraftOrder 11 10 = specSnakeIndex 11 10 :=
  ⟨by decide, by decide,
    (c1_snake_turn_resolver 11 10 (by decide) (by decide)).1.1⟩

/-- Claim C9, counterexample: the stated relation — resolver output for
pick `p` equals the output for pick `teamCount*2 - p` — already fails in
the concrete 10-team draft at `p = 1`: pick 1 resolves to index 0 while
pick `10*2 - 1 = 19` resolves to index 1 (the true mirror of pick `p` is
pick `2*teamCount + 1 - p`, one off from the claimed one). -/
theorem c9_counterexample :
    ¬ getDraftOrder 1 10 = getDraftOrder (10 * 2 - 1) 10 := by decide

/-- Claim C9 as amended: in a snake draft the resolver is mirror-symmetric
about each pair of rounds — for `1 ≤ p ≤ 2*T` the output for pick `p`
equals the output for pick `2*T + 1 - p` — and is periodic with period
`2*T`, which together express the reversal pattern (round 1 ascending,
round 2 descending, and so on across all rounds). -/
theorem c9_snake_mirror (T p : ℕ) (hT : 0 < T) (hp : 1 ≤ p) :
    (p ≤ 2 * T → getDraftOrder p T = getDraftOrder (2 * T + 1 - p) T) ∧
    getDraftOrder (p + 2 * T) T = getDraftOrder p T := by
  constructor
  · intro hp2
    rcases le_or_lt p T with hcase | hcase
    · have h1 : (p - 1) / T = 0 := Nat.div_eq_of_lt (by omega)
      have h2 : (p - 1) % T = p - 1 := Nat.mod_eq_of_lt (by omega)
      have e : 2 * T + 1 - p - 1 = (T - p) + T := by omega
      have hm1 : (2 * T + 1 - p - 1) / T = 1 := by
        rw [e, Nat.add_div_right _ hT, Nat.div_eq_of_lt (by omega)]
      have hm2 : (2 * T + 1 - p - 1) % T = T - p := by
        rw [e, Nat.add_mod_right, Nat.mod_eq_of_lt (by omega)]
      rw [getDraftOrder_div_mod p T hT hp,
        getDraftOrder_div_mod (2 * T + 1 - p) T hT (by omega),
        h1, h2, hm1, hm2]
      norm_num
      omega
    · have h1 : (p - 1) / T = 1 := by
        rw [Nat.div_eq_sub_div hT (by omega : T ≤ p - 1),
          Nat.div_eq_of_lt (by omega)]
      have h2 : (p - 1) % T = p - 1 - T := by
        rw [Nat.mod_eq_sub_mod (by omega : T ≤ p - 1)]
        exact Nat.mod_eq_of_lt (by omega)
      have hm1 : (2 * T + 1 - p - 1) / T = 0 := Nat.div_eq_of_lt (by omega)
      have hm2 : (2 * T + 1 - p - 1) % T = 2 * T - p := by
        rw [show 2 * T + 1 - p - 1 = 2 * T - p by omega]
        exact Nat.mod_eq_of_lt (by omega)
      rw [getDraftOrder_div_mod p T hT hp,
        getDraftOrder_div_mod (2 * T + 1 - p) T hT (by omega),
        h1, h2, hm1, hm2]
      rw [if_pos (by norm_num), if_neg (by norm_num)]
      omega
  · have e : p + 2 * T - 1 = ((p - 1) + T) + T := by omega
    have h1 : (p + 2 * T - 1) / T = (p - 1) / T + 2 := by
      rw [e, Nat.add_div_right _ hT, Nat.add_div_right _ hT]
    have h2 : (p + 2 * T - 1) % T = (p - 1) % T := by
      rw [e, Nat.add_mod_right, Nat.add_mod_right]
    rw [getDraftOrder_div_mod (p + 2 * T) T hT (by omega),
      getDraftOrder_div_mod p T hT hp, h1, h2]
    have hpar : ((p - 1) / T + 2 + 1) % 2 = ((p - 1) / T + 1) % 2 := by omega
    rw [hpar]

/-- Witness for C9 at `T = 10`, `p = 3`. -/
theorem c9_snake_mirror_witness :
    (0 : ℕ) < 10 ∧ (1 : ℕ) ≤ 3 ∧ (3 : ℕ) ≤ 2 * 10 ∧
    getDraftOrder 3 10 = getDraftOrder (2 * 10 + 1 - 3) 10 :=
  ⟨by decide, by decide, by decide,
    (c9_snake_mirror 10 3 (by decide) (by decide)).1 (by decide)⟩

/-- Division and remainder of a pick written as row offset plus in-row
position `j ∈ [1, T]`. -/
theorem rowDecomp (T r' j : ℕ) (hT : 0 < T) (hj1 : 1 ≤ j) (hjT : j ≤ T) :
    (r' * T + j - 1) / T = r' ∧ (r' * T + j - 1) % T = j - 1 := by
  constructor
  · rw [show r' * T + j - 1 = (j - 1) + r' * T by omega,
      Nat.add_mul_div_right _ _ hT, Nat.div_eq_of_lt (by omega)]
    omega
  · rw [show r' * T + j - 1 = (j - 1) + r' * T by omega,
      Nat.add_mul_mod_self_right]
    exact Nat.mod_eq_of_lt (by omega)

/-- Claim C10: for every `teamCount > 0` and `totalRounds > 0`, the
pick numbers the DraftGrid snake layout assigns to its cells form a
bijection from the cells `(round, column)` onto `{1, …, teamCount *
totalRounds}`, inverse to the snake resolver: every cell's pick number
resolves back to the cell's column (and lies in its row), and every pick
number in range is assigned to exactly the cell formed by its round and
its resolved team index. -/
theorem c10_grid_resolver_bijection (T R : ℕ) (hT : 0 < T) (hR : 0 < R) :
    (∀ r c, 1 ≤ r → r ≤ R → c < T →
        1 ≤ gridPickNumber T r c ∧ gridPickNumber T r c ≤ T * R ∧
        pickRound (gridPickNumber T r c) T = r ∧
        getDraftOrder (gridPickNumber T r c) T = c) ∧
    (∀ n, 1 ≤ n → n ≤ T * R →
        1 ≤ pickRound n T ∧ pickRound n T ≤ R ∧ getDraftOrder n T < T ∧
        gridPickNumber T (pickRound n T) (getDraftOrder n T) = n) := by
  constructor
  · intro r c hr1 hrR hc
    obtain ⟨r', rfl⟩ : ∃ r2, r = r2 + 1 := ⟨r - 1, by omega⟩
    have hmul : (r' + 1) * T ≤ R * T := Nat.mul_le_mul_right T hrR
    have hadd : (r' + 1) * T = r' * T + T := by ring
    have hTR : T * R = R * T := Nat.mul_comm _ _
    by_cases hpar : (r' + 1) % 2 = 0
    · have hgrid : gridPickNumber T (r' + 1) c = r' * T + (T - c) := by
        simp only [gridPickNumber, if_pos hpar, Nat.add_sub_cancel]
      have hd := (rowDecomp T r' (T - c) hT (by omega) (by omega)).1
      have hmm := (rowDecomp T r' (T - c) hT (by omega) (by omega)).2
      refine ⟨by rw [hgrid]; omega, by rw [hgrid]; omega, ?_, ?_⟩
      · rw [hgrid, pickRound_eq_div_succ _ _ hT (by omega), hd]
      · rw [hgrid, getDraftOrder_div_mod _ _ hT (by omega), hd, hmm,
          if_pos hpar]
        omega
    · have hgrid : gridPickNumber T (r' + 1) c = r' * T + (c + 1) := by
        simp only [gridPickNumber, if_neg hpar, Nat.add_sub_cancel]
      have hd := (rowDecomp T r' (c + 1) hT (by omega) (by omega)).1
      have hmm := (rowDecomp T r' (c + 1) hT (by omega) (by omega)).2
      refine ⟨by rw [hgrid]; omega, by rw [hgrid]; omega, ?_, ?_⟩
      · rw [hgrid, pickRound_eq_div_succ _ _ hT (by omega), hd]
      · rw [hgrid, getDraftOrder_div_mod _ _ hT (by omega), hd, hmm,
          if_neg hpar]
        omega
  · intro n hn1 hnTR
    rw [pickRound_eq_div_succ n T hT hn1, getDraftOrder_div_mod n T hT hn1]
    have hm : (n - 1) % T < T := Nat.mod_lt _ hT
    have hdm : T * ((n - 1) / T) + (n - 1) % T = n - 1 := Nat.div_add_mod _ _
    revert hm hdm
    generalize (n - 1) / T = q
    generalize (n - 1) % T = m
    intro hm hdm
    have hcomm : T * q = q * T := Nat.mul_comm _ _
    have hqR : q < R := by
      rcases Nat.lt_or_ge q R with h | h
      · exact h
      · exfalso
        have h2 : R * T ≤ q * T := Nat.mul_le_mul_right T h
        have hTR : T * R = R * T := Nat.mul_comm _ _
        omega
    refine ⟨by omega, by omega, ?_, ?_⟩
    · split_ifs <;> omega
    · simp only [gridPickNumber, Nat.add_sub_cancel]
      split_ifs with h <;> omega

/-- Witness for C10 in a 2-team, 2-round draft: the cell in round 2,
column 0 holds pick 4, and pick 4 resolves back to that cell. -/
theorem c10_grid_resolver_bijection_witness :
    (0 : ℕ) < 2 ∧ (0 : ℕ) < 2 ∧
    gridPickNumber 2 2 0 = 4 ∧ getDraftOrder (gridPickNumber 2 2 0) 2 = 0 ∧
    gridPickNumber 2 (pickRound 3 2) (getDraftOrder 3 2) = 3 :=
  ⟨by decide, by decide, by decide,
    ((c10_grid_resolver_bijection 2 2 (by decide) (by decide)).1 2 0
      (by decide) (by decide) (by decide)).2.2.2,
    ((c10_grid_resolver_bijection 2 2 (by decide) (by decide)).2 3
      (by decide) (by decide)).2.2.2⟩

/-- Claim C6, counterexample: the turn resolver accepts no draft-type
flag — its only inputs are the pick number and the team count — so a
linear draft is resolved by the same snake computation as any other: at
pick 11 of a 10-team draft the resolver yields index 9 where the linear
order (`positionInRound - 1` from the spec) requires index 0. -/
theorem c6_counterexample :
    ¬ getDraftOrder 11 10 = specLinearIndex 11 10 := by decide

/-- Claim C6 as amended: the resolver has no draft-type parameter and no
error path; it computes the snake order unconditionally (both embodiments
agree with the snake formula for every pick and positive team count,
whatever the league's draft type).  Draft types are checked only in the
separate `isValidDraftSettings`, which reports an error for an
unrecognized `draft_type` and accepts `linear` — but its result is never
consulted by the resolver. -/
theorem c6_resolver_ignores_draft_type (p T : ℕ) (dt : String)
    (hT : 0 < T) (hp : 1 ≤ p)
    (hdt : (["snake", "linear", "random"] : List String).contains dt = false) :
    getDraftOrder p T = specSnakeIndex p T ∧
    getCurrentDraftTeamIndex p T = specSnakeIndex p T ∧
    (isValidDraftSettings
      { rounds := none, pick_duration := none,
        draft_type := some dt }).valid = false ∧
    (isValidDraftSettings
      { rounds := none, pick_duration := none,
        draft_type := some "linear" }).valid = true := by
  refine ⟨rfl, ?_, ?_, by decide⟩
  · simp only [getCurrentDraftTeamIndex, specSnakeIndex]
    split_ifs <;> omega
  · simp only [isValidDraftSettings, hdt]
    decide

/-- Witness for C6 with the unrecognized draft type `auction`. -/
theorem c6_resolver_ignores_draft_type_witness :
    (0 : ℕ) < 10 ∧ (1 : ℕ) ≤ 11 ∧
    (["snake", "linear", "random"] : List String).contains "auction" = false ∧
    getDraftOrder 11 10 = specSnakeIndex 11 10 :=
  ⟨by decide, by decide, by decide,
    (c6_resolver_ignores_draft_type 11 10 "auction" (by decide) (by decide)
      (by decide)).1⟩

/-- Claim C7, counterexample: invoking the resolver with `teamCount = 0`
does not fail fast.  There is no error path in the source: the JavaScript
arithmetic silently flows through `Infinity` and `NaN` (division and
remainder by zero), and at `currentPick = 5` the resolver returns the
value NaN rather than signalling an error. -/
theorem c7_counterexample :
    getDraftOrderJs (.num 5) (.num 0) = .nan := by decide

/-- Claim C7 as amended: for every finite `currentPick`, the resolver at
`teamCount = 0` silently evaluates to NaN: the computation is total, no
error is signalled, and no valid team index is produced. -/
theorem c7_zero_teams_silently_nan (q : ℚ) :
    getDraftOrderJs (.num q) (.num 0) = .nan := by
  by_cases h0 : q = 0
  · subst h0; decide
  · by_cases hpos : 0 < q
    · simp [getDraftOrderJs, jsDiv, jsCeil, jsMod, jsSub, jsAdd, jsEq,
        h0, hpos]
    · have hneg : q < 0 := lt_of_le_of_ne (le_of_not_lt hpos) h0
      simp [getDraftOrderJs, jsDiv, jsCeil, jsMod, jsSub, jsAdd, jsEq,
        h0, hpos]

/-! ### Store lemmas -/

/-- Bumping `selected_by_percent` of one player preserves the list of
player ids. -/
theorem map_id_bump (players : List Player) (pid : ℕ) :
    ((players.map (fun p =>
        if p.id = pid then
          { p with selected_by_percent := p.selected_by_percent + 1 }
        else p)).map (fun p => p.id)) = players.map (fun p => p.id) := by
  induction players with
  | nil => rfl
  | cons p rest ih =>
      simp only [List.map_cons, ih]
      congr 1
      split_ifs <;> rfl

/-- ADD_DRAFT_PICK leaves the fields outside the draft data untouched. -/
theorem applyPickMade_frame (s : AppState) (e : PickEvent) :
    (applyPickMade s e).user = s.user ∧
    (applyPickMade s e).notifications = s.notifications ∧
    (applyPickMade s e).loading = s.loading ∧
    (applyPickMade s e).error = s.error := by
  obtain ⟨tid, pl, pk, ts⟩ := e
  exact ⟨rfl, rfl, rfl, rfl⟩

/-- Replaying pick events leaves the fields outside the draft data
untouched. -/
theorem replayPicks_frame (es : List PickEvent) (s : AppState) :
    (replayPicks s es).user = s.user ∧
    (replayPicks s es).notifications = s.notifications ∧
    (replayPicks s es).loading = s.loading ∧
    (replayPicks s es).error = s.error := by
  induction es generalizing s with
  | nil => exact ⟨rfl, rfl, rfl, rfl⟩
  | cons e rest ih =>
      have h1 := applyPickMade_frame s e
      have h2 := ih (applyPickMade s e)
      exact ⟨h2.1.trans h1.1, h2.2.1.trans h1.2.1,
        h2.2.2.1.trans h1.2.2.1, h2.2.2.2.trans h1.2.2.2⟩

/-- A snapshot load is exactly the wholesale replacement of the four
snapshot components. -/
theorem applySnapshot_eq (s : AppState) (snap : Snapshot) (now : String) :
    applySnapshot s snap now =
      { s with draftState := snap.draftState,
               availablePlayers := snap.availablePlayers,
               currentLeague := snap.currentLeague,
               userTeam := snap.userTeam } := rfl

/-- Claim C2, counterexample: a pick-made event whose `pickNumber` (3)
differs from the store's `currentPick` (5) is not rejected: the reducer
applies it anyway, moving `currentPick` to 4 (= pickNumber + 1) and
mutating the available-player list, with no resynchronization signalled
(the error channel stays empty). -/
theorem c2_counterexample :
    let s : AppState :=
      { user := none, currentLeague := none, userTeam := none,
        draftState := some
          { isActive := true, currentPick := 5, currentRound := 1,
            timeRemaining := 60, isMyTurn := false, availablePlayers := [],
            draftBoard := [[]], queuedPlayers := [] },
        availablePlayers := [{ id := 7, selected_by_percent := 0 }],
        notifications :=
          { trades := true, waivers := true, lineupReminders := true,
            news := true, scores := true },
        loading :=
          { user := false, league := false, players := false,
            draft := false },
        error := none }
    let e : PickEvent :=
      { teamId := "t1", player := { id := 7, selected_by_percent := 0 },
        pick := 3, now := "ts" }
    ¬ e.pick = getCurrentDraftPick s ∧
    getCurrentDraftPick (applyPickMade s e) = 4 ∧
    ¬ (applyPickMade s e).availablePlayers = s.availablePlayers ∧
    (applyPickMade s e).error = s.error := by decide

/-- Claim C2 as amended: ADD_DRAFT_PICK is applied unconditionally — even
when the event's `pickNumber` differs from the store's `currentPick`, the
reducer sets `currentPick` to `pickNumber + 1` and increments the picked
player's `selected_by_percent` (preserving the id list); it never rejects
an event, never signals a resynchronization (the error field is
untouched), and the draft state's own queue and available-player lists
are carried over unchanged. -/
theorem c2_add_draft_pick_unconditional (s : AppState) (ds : DraftState)
    (e : PickEvent) (hds : s.draftState = some ds) :
    (∃ ds2, (applyPickMade s e).draftState = some ds2 ∧
        ds2.currentPick = e.pick + 1 ∧
        ds2.queuedPlayers = ds.queuedPlayers ∧
        ds2.availablePlayers = ds.availablePlayers) ∧
    ((applyPickMade s e).availablePlayers.map (fun p => p.id) =
      s.availablePlayers.map (fun p => p.id)) ∧
    (applyPickMade s e).error = s.error ∧
    (applyPickMade s e).user = s.user := by
  obtain ⟨tid, pl, pk, ts⟩ := e
  refine ⟨?_, map_id_bump s.availablePlayers pl.id, rfl, rfl⟩
  simp only [applyPickMade, appReducer, hds]
  exact ⟨_, rfl, rfl, rfl, rfl⟩

/-- Witness for C2 at a one-player store with a stale event. -/
theorem c2_add_draft_pick_unconditional_witness :
    let s : AppState :=
      { user := none, currentLeague := none, userTeam := none,
        draftState := some
          { isActive := true, currentPick := 5, currentRound := 1,
            timeRemaining := 60, isMyTurn := false, availablePlayers := [],
            draftBoard := [[]], queuedPlayers := [] },
        availablePlayers := [{ id := 7, selected_by_percent := 0 }],
        notifications :=
          { trades := true, waivers := true, lineupReminders := true,
            news := true, scores := true },
        loading :=
          { user := false, league := false, players := false,
            draft := false },
        error := none }
    let e : PickEvent :=
      { teamId := "t1", player := { id := 7, selected_by_percent := 0 },
        pick := 3, now := "ts" }
    ∃ ds2, (applyPickMade s e).draftState = some ds2 ∧
      ds2.currentPick = e.pick + 1 ∧
      ds2.queuedPlayers = [] ∧ ds2.availablePlayers = [] := by
  intro s e
  exact (c2_add_draft_pick_unconditional s _ e rfl).1

/-- Claim C3, counterexample: a pick-made event whose `pickNumber` equals
the store's `currentPick` advances `currentPick`, but the picked player
(id 7) is NOT removed from the available-player set — its id is still
listed afterwards (only its `selected_by_percent` is incremented) — and a
queued copy of the player remains in `queuedPlayers` (no queue purge). -/
theorem c3_counterexample :
    let s : AppState :=
      { user := none, currentLeague := none, userTeam := none,
        draftState := some
          { isActive := true, currentPick := 1, currentRound := 1,
            timeRemaining := 60, isMyTurn := false, availablePlayers := [],
            draftBoard := [[]],
            queuedPlayers := [{ id := 7, selected_by_percent := 0 }] },
        availablePlayers := [{ id := 7, selected_by_percent := 0 }],
        notifications :=
          { trades := true, waivers := true, lineupReminders := true,
            news := true, scores := true },
        loading :=
          { user := false, league := false, players := false,
            draft := false },
        error := none }
    let e : PickEvent :=
      { teamId := "t1", player := { id := 7, selected_by_percent := 0 },
        pick := 1, now := "ts" }
    e.pick = getCurrentDraftPick s ∧
    (applyPickMade s e).availablePlayers.map (fun p => p.id) = [7] ∧
    ((applyPickMade s e).draftState.map
      (fun d => d.queuedPlayers.map (fun p => p.id))) = some [7] ∧
    ((applyPickMade s e).draftState.map (fun d => d.currentPick)) =
      some 2 := by decide

/-- Claim C3 as amended: on a matching pick (`pickNumber = currentPick`)
the reducer sets `currentPick` to `currentPick + 1` and appends the pick
record to the draft-board row of its round when that row exists (the
board keeps its shape), but it does not remove the picked player from the
available-player list (the id list is preserved; only
`selected_by_percent` changes), it leaves `queuedPlayers` untouched, and
it additionally updates the picking team's and the user team's rosters. -/
theorem c3_matching_pick_applied (s : AppState) (ds : DraftState)
    (e : PickEvent) (hds : s.draftState = some ds)
    (hmatch : e.pick = ds.currentPick) :
    (∃ ds2, (applyPickMade s e).draftState = some ds2 ∧
        ds2.currentPick = ds.currentPick + 1 ∧
        ds2.queuedPlayers = ds.queuedPlayers ∧
        ds2.draftBoard.length = ds.draftBoard.length) ∧
    ((applyPickMade s e).availablePlayers.map (fun p => p.id) =
      s.availablePlayers.map (fun p => p.id)) := by
  obtain ⟨tid, pl, pk, ts⟩ := e
  refine ⟨?_, map_id_bump s.availablePlayers pl.id⟩
  simp only [applyPickMade, appReducer, hds]
  refine ⟨_, rfl, ?_, rfl, ?_⟩
  · show pk + 1 = ds.currentPick + 1
    have hm2 : pk = ds.currentPick := hmatch
    omega
  · show (List.mapIdx _ ds.draftBoard).length = ds.draftBoard.length
    simp

/-- Witness for C3 with a matching pick in a one-player store. -/
theorem c3_matching_pick_applied_witness :
    let s : AppState :=
      { user := none, currentLeague := none, userTeam := none,
        draftState := some
          { isActive := true, currentPick := 1, currentRound := 1,
            timeRemaining := 60, isMyTurn := false, availablePlayers := [],
            draftBoard := [[]],
            queuedPlayers := [{ id := 7, selected_by_percent := 0 }] },
        availablePlayers := [{ id := 7, selected_by_percent := 0 }],
        notifications :=
          { trades := true, waivers := true, lineupReminders := true,
            news := true, scores := true },
        loading :=
          { user := false, league := false, players := false,
            draft := false },
        error := none }
    let e : PickEvent :=
      { teamId := "t1", player := { id := 7, selected_by_percent := 0 },
        pick := 1, now := "ts" }
    (applyPickMade s e).availablePlayers.map (fun p => p.id) =
      s.availablePlayers.map (fun p => p.id) := by
  intro s e
  exact (c3_matching_pick_applied s _ e rfl rfl).2

/-- Claim C8: loading a snapshot and then replaying an in-order sequence
of pick-made events yields exactly the state obtained by loading, as one
bulk snapshot, the draft components of the final replayed state:
incremental replay and bulk load agree (the reducer's pick handling never
touches anything outside the snapshot components). -/
theorem c8_replay_round_trip (s : AppState) (snap : Snapshot)
    (es : List PickEvent) (now : String)
    (hord : picksInOrder (getCurrentDraftPick (applySnapshot s snap now))
      es = true) :
    applySnapshot s
        (snapshotOf (replayPicks (applySnapshot s snap now) es)) now =
      replayPicks (applySnapshot s snap now) es := by
  have hmain : ∀ t : AppState, t.user = s.user →
      t.notifications = s.notifications → t.loading = s.loading →
      t.error = s.error → applySnapshot s (snapshotOf t) now = t := by
    intro t h1 h2 h3 h4
    rw [applySnapshot_eq]
    obtain ⟨u, lg, ut, ds, ap, nt, ld, er⟩ := t
    simp only [snapshotOf] at h1 h2 h3 h4 ⊢
    subst h1 h2 h3 h4
    rfl
  have hf := replayPicks_frame es (applySnapshot s snap now)
  exact hmain _ hf.1 hf.2.1 hf.2.2.1 hf.2.2.2

/-- Witness for C8: a one-event in-order replay over a one-player
snapshot. -/
theorem c8_replay_round_trip_witness :
    let s : AppState := initialState
    let snap : Snapshot :=
      { draftState := some
          { isActive := true, currentPick := 1, currentRound := 1,
            timeRemaining := 60, isMyTurn := false, availablePlayers := [],
            draftBoard := [[]], queuedPlayers := [] },
        availablePlayers := [{ id := 7, selected_by_percent := 0 }],
        currentLeague := none, userTeam := none }
    let es : List PickEvent :=
      [{ teamId := "t1", player := { id := 7, selected_by_percent := 0 },
         pick := 1, now := "ts" }]
    picksInOrder (getCurrentDraftPick (applySnapshot s snap "t0")) es =
      true ∧
    applySnapshot s (snapshotOf (replayPicks (applySnapshot s snap "t0")
        es)) "t0" =
      replayPicks (applySnapshot s snap "t0") es := by
  intro s snap es
  exact ⟨by decide, c8_replay_round_trip s snap es "t0" (by decide)⟩

/-! ### Queue invariant over the mock simulator -/

/-- The queue and available-player components of a `draftPlayer` result
(both branches of the completion check produce the same two fields). -/
theorem draftPlayer_queue_avail (s : MockState) (player : MockPlayer)
    (t : ℕ) (now : String) :
    (draftPlayer s player t now).userQueue =
      s.userQueue.filter (fun p => p.id != player.id) ∧
    (draftPlayer s player t now).availablePlayers =
      s.availablePlayers.map (fun p =>
        if p.id = player.id then { p with isAvailable := false } else p) := by
  simp only [draftPlayer]
  split_ifs <;> exact ⟨rfl, rfl⟩

/-- A pick by any team preserves the queue invariant: the drafted player
is purged from the queue, every other queued player stays available. -/
theorem draftPlayer_inv (s : MockState) (player : MockPlayer) (t : ℕ)
    (now : String) (hInv : queueSubsetAvailable s) :
    queueSubsetAvailable (draftPlayer s player t now) := by
  have h := draftPlayer_queue_avail s player t now
  intro q hq
  rw [h.1, List.mem_filter] at hq
  obtain ⟨hqmem, hqne⟩ := hq
  have hqne2 : q.id ≠ player.id := by simpa using hqne
  have hmem := hInv q hqmem
  unfold availableIds at hmem ⊢
  rw [h.2]
  rw [List.mem_map] at hmem ⊢
  obtain ⟨p, hp, hpid⟩ := hmem
  rw [List.mem_filter] at hp
  refine ⟨p, ?_, hpid⟩
  rw [List.mem_filter]
  refine ⟨?_, hp.2⟩
  rw [List.mem_map]
  refine ⟨p, hp.1, ?_⟩
  rw [if_neg]
  intro hcon
  exact hqne2 (hpid ▸ hcon)

/-- Enqueuing a player that is currently available preserves the queue
invariant. -/
theorem addToQueue_inv (s : MockState) (player : MockPlayer)
    (hInv : queueSubsetAvailable s) (hp : player.id ∈ availableIds s) :
    queueSubsetAvailable (addToQueue s player) := by
  unfold addToQueue
  split_ifs with h
  · exact hInv
  · intro q hq
    have hq2 : q ∈ s.userQueue ++ [player] := hq
    have hgoal : q.id ∈ availableIds s := by
      rcases List.mem_append.mp hq2 with h1 | h1
      · exact hInv q h1
      · rw [List.mem_singleton] at h1
        subst h1
        exact hp
    exact hgoal

/-- Guarded operation sequences preserve the queue invariant. -/
theorem opsGuarded_preserves_inv (ops : List MockOp) :
    ∀ s : MockState, queueSubsetAvailable s → opsGuarded s ops = true →
      queueSubsetAvailable (applyMockOps s ops) := by
  induction ops with
  | nil => intro s h _; exact h
  | cons op rest ih =>
      intro s hInv hg
      cases op with
      | enqueue p =>
          simp only [opsGuarded, Bool.and_eq_true] at hg
          exact ih _ (addToQueue_inv s p hInv (of_decide_eq_true hg.1)) hg.2
      | pickMade p t now =>
          simp only [opsGuarded, Bool.and_eq_true] at hg
          exact ih _ (draftPlayer_inv s p t now hInv) hg.2

/-- Claim C4, counterexample: the invariant does not hold over arbitrary
interleavings of enqueue and pick-made operations, because `addToQueue`
performs no availability check: after player 3 is drafted (by team 1) and
then enqueued, the queue holds id 3 while the available-player set does
not. -/
theorem c4_counterexample :
    let p3 : MockPlayer := { id := 3, isAvailable := true }
    let s0 : MockState :=
      { leagueId := "L", rosterSize := 2, isActive := true,
        currentPick := 1, currentTeamIndex := 0, draftPicks := [],
        mockTeams := [{ id := "t0", draftedPlayers := [] },
                      { id := "t1", draftedPlayers := [] }],
        availablePlayers := [{ id := 3, isAvailable := true },
                             { id := 7, isAvailable := true },
                             { id := 9, isAvailable := true }],
        filteredPlayers := [{ id := 3, isAvailable := true },
                            { id := 7, isAvailable := true },
                            { id := 9, isAvailable := true }],
        userQueue := [], isDraftComplete := false, isAutoPicking := false }
    ¬ queueSubsetAvailable
        (applyMockOps s0 [.pickMade p3 1 "ts", .enqueue p3]) := by decide

/-- Claim C4 as amended: over every finite sequence of enqueue and
pick-made operations in which each enqueued player is available at the
moment it is enqueued, the personal queue never contains a playerId
absent from the available-player set — pick-made operations by any team
(not only the local user) purge the drafted player from the queue — and
in the concrete scenario, queue [P7, P3, P9] becomes [P7, P9] when P3 is
drafted by another team.  (Without the availability condition on
enqueues the invariant fails, since `addToQueue` does not check it.) -/
theorem c4_queue_purged_on_any_pick (s : MockState) (ops : List MockOp)
    (hInv : queueSubsetAvailable s) (hg : opsGuarded s ops = true) :
    queueSubsetAvailable (applyMockOps s ops) ∧
    ((draftPlayer
        { leagueId := "L", rosterSize := 3, isActive := true,
          currentPick := 2, currentTeamIndex := 1, draftPicks := [],
          mockTeams := [{ id := "t0", draftedPlayers := [] },
                        { id := "t1", draftedPlayers := [] }],
          availablePlayers := [{ id := 3, isAvailable := true },
                               { id := 7, isAvailable := true },
                               { id := 9, isAvailable := true }],
          filteredPlayers := [{ id := 3, isAvailable := true },
                              { id := 7, isAvailable := true },
                              { id := 9, isAvailable := true }],
          userQueue := [{ id := 7, isAvailable := true },
                        { id := 3, isAvailable := true },
                        { id := 9, isAvailable := true }],
          isDraftComplete := false, isAutoPicking := false }
        { id := 3, isAvailable := true } 1 "ts").userQueue.map
        (fun p => p.id)) = [7, 9] :=
  ⟨opsGuarded_preserves_inv ops s hInv hg, by decide⟩

/-- Witness for C4: a guarded enqueue followed by a pick by another team
keeps the queue inside the available set. -/
theorem c4_queue_purged_on_any_pick_witness :
    let p3 : MockPlayer := { id := 3, isAvailable := true }
    let s0 : MockState :=
      { leagueId := "L", rosterSize := 2, isActive := true,
        currentPick := 1, currentTeamIndex := 0, draftPicks := [],
        mockTeams := [{ id := "t0", draftedPlayers := [] },
                      { id := "t1", draftedPlayers := [] }],
        availablePlayers := [{ id := 3, isAvailable := true },
                             { id := 7, isAvailable := true }],
        filteredPlayers := [{ id := 3, isAvailable := true },
                            { id := 7, isAvailable := true }],
        userQueue := [], isDraftComplete := false, isAutoPicking := false }
    queueSubsetAvailable s0 ∧
    opsGuarded s0 [.enqueue p3, .pickMade p3 1 "ts"] = true ∧
    queueSubsetAvailable
      (applyMockOps s0 [.enqueue p3, .pickMade p3 1 "ts"]) := by
  intro p3 s0
  exact ⟨by decide, by decide,
    (c4_queue_purged_on_any_pick s0 [.enqueue p3, .pickMade p3 1 "ts"]
      (by decide) (by decide)).1⟩

/-- Claim C5, counterexample: the availability half of the claim fails —
on the user's turn, `handleUserDraftPick` drafts a player that is NOT in
the available-player set (no availability guard exists in the source):
the call changes the draft state instead of being a rejected no-op. -/
theorem c5_counterexample :
    let pUnavail : MockPlayer := { id := 3, isAvailable := false }
    let s : MockState :=
      { leagueId := "L", rosterSize := 2, isActive := true,
        currentPick := 2, currentTeamIndex := 0, draftPicks := [],
        mockTeams := [{ id := "t0", draftedPlayers := [] },
                      { id := "t1", draftedPlayers := [] }],
        availablePlayers := [{ id := 3, isAvailable := false },
                             { id := 7, isAvailable := true }],
        filteredPlayers := [{ id := 7, isAvailable := true }],
        userQueue := [], isDraftComplete := false, isAutoPicking := false }
    ¬ pUnavail.id ∈ availableIds s ∧
    ¬ handleUserDraftPick s pUnavail "ts" = s := by decide

/-- Claim C5 as amended: when it is not the local user's turn the pick
paths are rejected no-ops — `handleUserDraftPick` returns the state
unchanged whenever the draft is inactive, a different team is on the
clock, or an auto-pick is in flight, and `handleMakePick` with
`isMyTurn = false` performs no network call and leaves the queue
unchanged — but no availability guard exists in `handleUserDraftPick`:
an unavailable player passed on the user's turn is drafted anyway. -/
theorem c5_not_your_turn_noop (s : MockState) (player : MockPlayer)
    (now : String) (queue : List ℕ) (playerId : ℕ)
    (mkSuccess : ℕ → Bool)
    (hTurn : s.currentTeamIndex ≠ 0 ∨ s.isActive = false ∨
      s.isAutoPicking = true) :
    handleUserDraftPick s player now = s ∧
    handleMakePick false mkSuccess queue playerId = (false, queue) := by
  constructor
  · have hcond :
        (!s.isActive || s.currentTeamIndex != 0 || s.isAutoPicking) =
          true := by
      rcases hTurn with h | h | h <;> simp [h]
    simp [handleUserDraftPick, hcond]
  · rfl

/-- Witness for C5 while team 1 is on the clock. -/
theorem c5_not_your_turn_noop_witness :
    let p7 : MockPlayer := { id := 7, isAvailable := true }
    let s : MockState :=
      { leagueId := "L", rosterSize := 2, isActive := true,
        currentPick := 2, currentTeamIndex := 1, draftPicks := [],
        mockTeams := [{ id := "t0", draftedPlayers := [] },
                      { id := "t1", draftedPlayers := [] }],
        availablePlayers := [{ id := 7, isAvailable := true }],
        filteredPlayers := [{ id := 7, isAvailable := true }],
        userQueue := [], isDraftComplete := false, isAutoPicking := false }
    handleUserDraftPick s p7 "ts" = s ∧
    handleMakePick false (fun _ => true) [7] 7 = (false, [7]) := by
  intro p7 s
  exact c5_not_your_turn_noop s p7 "ts" [7] 7 (fun _ => true)
    (Or.inl (by decide))

/-! ### Agreement of the JavaScript model with the Nat embedding -/

/-- Rational ceiling of `p / T` computed from bracketing multiples. -/
theorem ceil_div_eq (p T q : ℕ) (hT : 0 < T) (hq : q * T < p)
    (hqT : p ≤ (q + 1) * T) :
    ⌈(p : ℚ) / (T : ℚ)⌉ = ((q + 1 : ℕ) : ℤ) := by
  have hTq : (0 : ℚ) < (T : ℚ) := by exact_mod_cast hT
  rw [Int.ceil_eq_iff]
  constructor
  · rw [lt_div_iff hTq]
    push_cast
    have he : ((q : ℚ) + 1 - 1) = (q : ℚ) := by ring
    rw [he]
    exact_mod_cast hq
  · rw [div_le_iff hTq]
    push_cast
    exact_mod_cast hqT

/-- The JavaScript truncation of `a / b` on naturals is the Nat quotient. -/
theorem trunc_div_eq (a b q m : ℕ) (hb : 0 < b) (hdm : b * q + m = a)
    (hm : m < b) :
    jsTrunc ((a : ℚ) / (b : ℚ)) = ((q : ℕ) : ℤ) := by
  have hbq : (0 : ℚ) < (b : ℚ) := by exact_mod_cast hb
  have hdmq : ((b : ℚ)) * (q : ℚ) + (m : ℚ) = (a : ℚ) := by
    exact_mod_cast hdm
  have hmq : ((m : ℚ)) < (b : ℚ) := by exact_mod_cast hm
  have hm0 : (0 : ℚ) ≤ (m : ℚ) := by positivity
  have hc : ((q : ℚ)) * (b : ℚ) = ((b : ℚ)) * (q : ℚ) := by ring
  unfold jsTrunc
  rw [if_pos (by positivity)]
  rw [Int.floor_eq_iff]
  constructor
  · rw [le_div_iff hbq]
    push_cast
    linarith
  · rw [div_lt_iff hbq]
    push_cast
    nlinarith

/-- The JavaScript remainder on two naturals is the Nat remainder. -/
theorem jsMod_natCast (a b : ℕ) (hb : 0 < b) :
    jsMod (.num (a : ℚ)) (.num (b : ℚ)) = .num (((a % b : ℕ) : ℚ)) := by
  have hb0 : ((b : ℚ)) ≠ 0 := by exact_mod_cast hb.ne'
  simp only [jsMod]
  rw [if_neg hb0]
  congr 1
  rw [trunc_div_eq a b (a / b) (a % b) hb (Nat.div_add_mod a b)
    (Nat.mod_lt _ hb)]
  have h4 : ((b : ℚ)) * ((a / b : ℕ) : ℚ) + ((a % b : ℕ) : ℚ) = (a : ℚ) := by
    exact_mod_cast Nat.div_add_mod a b
  rw [Int.cast_natCast]
  linarith

/-- On positive team counts and picks the JavaScript-semantics resolver
agrees with the Nat embedding `getDraftOrder`, justifying the ceiling
division used there. -/
theorem getDraftOrderJs_agrees (p T : ℕ) (hT : 0 < T) (hp : 1 ≤ p) :
    getDraftOrderJs (.num (p : ℚ)) (.num (T : ℚ)) =
      .num ((getDraftOrder p T : ℕ) : ℚ) := by
  have hT0 : ((T : ℚ)) ≠ 0 := by exact_mod_cast hT.ne'
  have hm : (p - 1) % T < T := Nat.mod_lt _ hT
  have hqm : T * ((p - 1) / T) + (p - 1) % T = p - 1 := Nat.div_add_mod _ _
  have hcomm : T * ((p - 1) / T) = ((p - 1) / T) * T := Nat.mul_comm _ _
  unfold getDraftOrderJs
  show (if jsEq (jsMod (jsCeil (jsDiv (.num (p : ℚ)) (.num (T : ℚ))))
            (.num 2)) (.num 0) = true then
        jsSub (.num (T : ℚ))
          (jsAdd (jsMod (jsSub (.num (p : ℚ)) (.num 1)) (.num (T : ℚ)))
            (.num 1))
      else
        jsSub
          (jsAdd (jsMod (jsSub (.num (p : ℚ)) (.num 1)) (.num (T : ℚ)))
            (.num 1))
          (.num 1)) =
      .num ((getDraftOrder p T : ℕ) : ℚ)
  have hdiv : jsDiv (.num (p : ℚ)) (.num (T : ℚ)) =
      .num ((p : ℚ) / (T : ℚ)) := by
    simp only [jsDiv]
    rw [if_neg hT0]
  rw [hdiv]
  have hceil : jsCeil (.num ((p : ℚ) / (T : ℚ))) =
      .num ((((p - 1) / T + 1 : ℕ)) : ℚ) := by
    simp only [jsCeil]
    congr 1
    rw [ceil_div_eq p T ((p - 1) / T) hT (by omega) (by
      have hexp : ((p - 1) / T + 1) * T = ((p - 1) / T) * T + T := by ring
      omega)]
    norm_cast
  rw [hceil]
  have hmod2 : jsMod (.num ((((p - 1) / T + 1 : ℕ)) : ℚ)) (.num 2) =
      .num (((((p - 1) / T + 1) % 2 : ℕ)) : ℚ) := by
    have h := jsMod_natCast ((p - 1) / T + 1) 2 (by norm_num)
    rw [show (((2 : ℕ)) : ℚ) = (2 : ℚ) by norm_num] at h
    exact h
  rw [hmod2]
  have hsub : jsSub (.num (p : ℚ)) (.num 1) = .num (((p - 1 : ℕ)) : ℚ) := by
    simp only [jsSub]
    congr 1
    rw [Nat.cast_sub hp, Nat.cast_one]
  rw [hsub]
  rw [jsMod_natCast (p - 1) T hT]
  have hadd : jsAdd (.num (((p - 1) % T : ℕ) : ℚ)) (.num 1) =
      .num ((((p - 1) % T + 1 : ℕ)) : ℚ) := by
    simp only [jsAdd]
    congr 1
    push_cast
    ring
  rw [hadd]
  by_cases hpar : ((p - 1) / T + 1) % 2 = 0
  · have hq : jsEq (.num (((((p - 1) / T + 1) % 2 : ℕ)) : ℚ)) (.num 0) =
        true := by
      simp [jsEq, hpar]
    rw [getDraftOrder_div_mod p T hT hp, if_pos hpar]
    simp only [hq, if_true]
    simp only [jsSub]
    congr 1
    rw [Nat.cast_sub (by omega : (p - 1) % T + 1 ≤ T)]
  · have hq : jsEq (.num (((((p - 1) / T + 1) % 2 : ℕ)) : ℚ)) (.num 0) =
        false := by
      simp only [jsEq, decide_eq_false_iff_not]
      exact_mod_cast hpar
    rw [getDraftOrder_div_mod p T hT hp, if_neg hpar]
    simp only [hq, Bool.false_eq_true, if_false]
    simp only [jsSub]
    congr 1
    push_cast
    try ring
